import Mathlib

/-
Verification of the fetch-orchestration and streaming-backpressure core of
LibCurlHttpContentFetcher.cpp (AVSCommon/Utils/src/LibcurlUtils).

The C++ source is embedded shallowly:
  * the sink (AttachmentWriter) is modelled by a trace of its responses to
    successive write calls;
  * bodyCallback's bounded-write loop is a structural recursion over that
    trace;
  * headerCallback's istream-based parsing is modelled over lists of
    characters with C++11 stream-extraction semantics;
  * getContent is a function from the fetcher state, a record of which
    transport-configuration steps succeed, the fetch option, and whether a
    writer was supplied, to the resulting state, result and side effects;
  * the two background-task bodies are recursions over a trace of transport
    (curl multi) step outcomes, producing the ordered list of events
    (promise fulfilments, sink closure, done-flag set) the task performs.
-/

namespace LibCurlFetcher

/-- Write status values of the AttachmentWriter sink, as consumed by the
switch in LibCurlHttpContentFetcher::bodyCallback.  `unrecognized` stands
for any value outside the six enumerators (the switch's fall-through
path after the closing brace). -/
inductive WriteStatus where
  | ok
  | okBufferFull
  | timedout
  | closed
  | errorBytesLessThanWordSize
  | errorInternal
  | unrecognized
deriving DecidableEq

/-- One response of the sink to one write call: the byte count the sink
reports written, and the status it reports. -/
structure WriteResult where
  bytes : Nat
  status : WriteStatus
deriving DecidableEq

/-- Outcome of one bodyCallback delivery: `finished` when the C++ function
returned (carrying the returned count, the bytes that reached the sink in
order, and the number of write calls made), `exhausted` when the modelled
response trace ended while the loop was still running. -/
inductive DeliveryOutcome where
  | finished (retCount : Nat) (written : List Nat) (attempts : Nat)
  | exhausted (written : List Nat) (attempts : Nat)
deriving DecidableEq

/-- Bytes that reached the sink during the delivery, in order. -/
def DeliveryOutcome.written : DeliveryOutcome → List Nat
  | .finished _ w _ => w
  | .exhausted w _ => w

/-- The value bodyCallback returned, if it returned within the trace. -/
def DeliveryOutcome.retVal : DeliveryOutcome → Option Nat
  | .finished r _ _ => some r
  | .exhausted _ _ => none

/-- Number of write calls made on the sink during the delivery. -/
def DeliveryOutcome.tries : DeliveryOutcome → Nat
  | .finished _ _ a => a
  | .exhausted _ a => a

/-- The while loop of LibCurlHttpContentFetcher::bodyCallback
(source lines 99-126).  `data` is the chunk, `total` is
totalBytesWritten, `acc` the bytes delivered to the sink so far, `att`
the number of write calls made so far; the list argument is the trace of
sink responses to the successive write calls.  Each write call passes the
span `data.drop total` (the code advances `data` by numBytesWritten and
shrinks the requested length by totalBytesWritten); the sink accepts the
first `r.bytes` of it.  The status dispatch mirrors the C++ switch:
CLOSED / ERROR_BYTES_LESS_THAN_WORD_SIZE / ERROR_INTERNAL return
totalBytesWritten; TIMEDOUT / OK continue; OK_BUFFER_FULL returns 0, as
does any unrecognized status. -/
def writeLoop (data : List Nat) (total : Nat) (acc : List Nat) (att : Nat) :
    List WriteResult → DeliveryOutcome
  | [] =>
    if total < data.length then .exhausted acc att
    else .finished total acc att
  | r :: rest =>
    if total < data.length then
      let accepted := (data.drop total).take r.bytes
      let total' := total + r.bytes
      let acc' := acc ++ accepted
      match r.status with
      | .closed => .finished total' acc' (att + 1)
      | .errorBytesLessThanWordSize => .finished total' acc' (att + 1)
      | .errorInternal => .finished total' acc' (att + 1)
      | .timedout => writeLoop data total' acc' (att + 1) rest
      | .ok => writeLoop data total' acc' (att + 1) rest
      | .okBufferFull => .finished 0 acc' (att + 1)
      | .unrecognized => .finished 0 acc' (att + 1)
    else .finished total acc att

/-- LibCurlHttpContentFetcher::bodyCallback (source lines 83-129), for a
valid userData pointer.  `done` is m_done, `hasWriter` is whether
m_streamWriter is non-null.  If m_done is set the call returns 0 at once
with no write; if there is no stream writer the loop is skipped and
totalBytesWritten (= 0) is returned; otherwise the bounded-write loop
runs. -/
def bodyCallback (done : Bool) (hasWriter : Bool) (data : List Nat)
    (responses : List WriteResult) : DeliveryOutcome :=
  if done then .finished 0 [] 0
  else if hasWriter then writeLoop data 0 [] 0 responses
  else .finished 0 [] 0

/-- A sink response trace is valid for a chunk of length `target`,
starting from progress `total`, when no response claims more bytes than
were offered in the corresponding write call. -/
def validTrace (target : Nat) : Nat → List WriteResult → Bool
  | _, [] => true
  | total, r :: rest =>
    decide (r.bytes + total ≤ target) && validTrace target (total + r.bytes) rest

/-- Total byte count claimed by a trace of sink responses. -/
def traceBytes (rs : List WriteResult) : Nat := (rs.map WriteResult.bytes).sum

/-- The bytes of a string literal; header lines and header values are
byte strings (std::string) in the source. -/
def strBytes (s : String) : List Nat := s.toList.map Char.toNat

/-- ASCII lowercasing as performed by std::transform(..., ::tolower) on
each byte of the header line (source line 56). -/
def asciiLower (b : Nat) : Nat :=
  if 65 ≤ b ∧ b ≤ 90 then b + 32 else b

/-- Whitespace for the "C" locale, as used by istream token extraction:
space, tab, newline, vertical tab, form feed, carriage return. -/
def isSpaceB (b : Nat) : Bool :=
  b = 32 || b = 9 || b = 10 || b = 11 || b = 12 || b = 13

/-- A decimal digit byte. -/
def isDigitB (b : Nat) : Bool := 48 ≤ b && b ≤ 57

/-- Skip leading stream whitespace. -/
def dropSpaces (s : List Nat) : List Nat := s.dropWhile isSpaceB

/-- istream `>> std::string`: skip whitespace, then take the maximal run
of non-whitespace bytes. -/
def token1 (s : List Nat) : List Nat :=
  (dropSpaces s).takeWhile (fun b => !isSpaceB b)

/-- The stream contents remaining after one `>> std::string` extraction. -/
def afterToken1 (s : List Nat) : List Nat :=
  (dropSpaces s).dropWhile (fun b => !isSpaceB b)

/-- Leading decimal digits of a byte list. -/
def leadingDigits (s : List Nat) : List Nat := s.takeWhile isDigitB

/-- Numeric value of a digit string (most significant first). -/
def natOfDigits (ds : List Nat) : Nat :=
  ds.foldl (fun n b => n * 10 + (b - 48)) 0

/-- istream `>> long`: skip whitespace, then read an optional sign (45 is
a minus, 43 a plus) and a maximal digit run; per C++11, a failed
extraction (no digits) stores 0. -/
def extractLong (s : List Nat) : Int :=
  match dropSpaces s with
  | [] => 0
  | b :: rest =>
    if b = 45 then
      if (leadingDigits rest).isEmpty then 0 else -(natOfDigits (leadingDigits rest) : Int)
    else if b = 43 then
      if (leadingDigits rest).isEmpty then 0 else (natOfDigits (leadingDigits rest) : Int)
    else if isDigitB b then (natOfDigits (leadingDigits (b :: rest)) : Int)
    else 0

/-- Does `pat` occur at position 0 of `s` (std::string::find(pat) == 0)? -/
def beginsWith : List Nat → List Nat → Bool
  | [], _ => true
  | _ :: _, [] => false
  | p :: ps, b :: bs => p = b && beginsWith ps bs

/-- The two fields of the fetcher written by headerCallback:
m_lastStatusCode and m_lastContentType. -/
structure HeaderState where
  lastStatusCode : Int
  lastContentType : List Nat
deriving DecidableEq

/-- The protocol-version token searched for at position 0 (lowercased). -/
def httpTok : List Nat := strBytes "http"

/-- The content-type field name searched for at position 0 (lowercased). -/
def contentTypeTok : List Nat := strBytes "content-type"

/-- LibCurlHttpContentFetcher::headerCallback (source lines 50-81), for a
valid userData pointer.  The line is lowercased; a line starting with
"http" is parsed as `<version> <statusCode>` updating m_lastStatusCode; a
line starting with "content-type" is parsed as `<fieldname> <value>`,
with everything from the first semicolon (byte 59) onward erased,
updating m_lastContentType; any other line leaves the state unchanged.
The returned Nat is the callback's return value, size * nmemb. -/
def headerCallback (line0 : List Nat) (st : HeaderState) : HeaderState × Nat :=
  let line := line0.map asciiLower
  if beginsWith httpTok line then
    ({ st with lastStatusCode := extractLong (afterToken1 line) }, line0.length)
  else if beginsWith contentTypeTok line then
    let ct := token1 (afterToken1 line)
    ({ st with lastContentType := ct.takeWhile (fun b => b ≠ 59) }, line0.length)
  else (st, line0.length)

/-- LibCurlHttpContentFetcher::noopCallback (source lines 131-133):
returns 0 and delivers the bytes nowhere. -/
def noopCallback (_data : List Nat) : Nat × List Nat := (0, [])

/-- The fetch-mode argument of getContent.  CONTENT_TYPE and ENTIRE_BODY
are the two enumerators handled by the switch (source lines 194-345);
`other` is modelled from the spec: the public surface declares mode
∈ {MetadataOnly, FullBody}, and `other` stands for any argument value
besides those two enumerators, which the switch routes to its default
branch (source lines 346-347). -/
inductive FetchOptions where
  | CONTENT_TYPE
  | ENTIRE_BODY
  | other
deriving DecidableEq

/-- Which transport-configuration steps of getContent succeed, in source
order: setURL (line 150), CURLOPT_FOLLOWLOCATION (154), CURLOPT_AUTOREFERER
(159), CURLOPT_COOKIEFILE (167), setConnectionTimeout (172),
CURLOPT_USERAGENT (177), the noop CURLOPT_WRITEFUNCTION in CONTENT_TYPE
mode (201), local writer creation in ENTIRE_BODY mode (276),
setWriteCallback (286) and setHeaderCallback (290). -/
structure TransportConfig where
  setURLOk : Bool
  followRedirectsOk : Bool
  autoReferOk : Bool
  cookieOk : Bool
  connTimeoutOk : Bool
  userAgentOk : Bool
  noopWriteCallbackOk : Bool
  localWriterOk : Bool
  setWriteCallbackOk : Bool
  setHeaderCallbackOk : Bool
deriving DecidableEq

/-- The fetcher fields getContent reads or writes synchronously:
m_hasObjectBeenUsed, m_streamWriter (presence), m_done, m_isShutdown. -/
structure Fetcher where
  hasObjectBeenUsed : Bool
  streamWriter : Bool
  done : Bool
  isShutdown : Bool
deriving DecidableEq

/-- The fetcher as built by the constructor (source lines 135-141). -/
def initialFetcher : Fetcher :=
  { hasObjectBeenUsed := false, streamWriter := false,
    done := false, isShutdown := false }

/-- Observable side effects of one getContent call itself (the background
task's own effects are modelled separately by the thread functions). -/
structure CallEffects where
  spawnedThread : Bool
  installedNoopWriteCallback : Bool
  installedBodyWriteCallback : Bool
  installedHeaderCallback : Bool
  createdLocalStream : Bool
  statusPromiseSetsDuringCall : Nat
  contentTypePromiseSetsDuringCall : Nat
deriving DecidableEq

/-- No observable side effects. -/
def noEffects : CallEffects :=
  { spawnedThread := false, installedNoopWriteCallback := false,
    installedBodyWriteCallback := false, installedHeaderCallback := false,
    createdLocalStream := false, statusPromiseSetsDuringCall := 0,
    contentTypePromiseSetsDuringCall := 0 }

/-- getContent's return value: nullptr, or an HTTPContent handle whose
stream member is non-null exactly when the attachment was created
locally (source lines 189, 275, 349-350). -/
inductive GetContentResult where
  | nullResult
  | content (hasStream : Bool)
deriving DecidableEq

/-- Post-state, return value and synchronous side effects of one
getContent call. -/
structure CallOutcome where
  fetcher : Fetcher
  result : GetContentResult
  effects : CallEffects
deriving DecidableEq

/-- LibCurlHttpContentFetcher::getContent (source lines 143-351), up to
and including the return statement; the spawned task's own behaviour is
modelled by `contentTypeThread` and `entireBodyThread` below.  The
m_hasObjectBeenUsed.test_and_set() guard runs first (line 146): a set
flag returns nullptr at once; otherwise the flag is now set and the
configuration steps run in order, each failure returning nullptr.  The
switch then dispatches on the fetch option as in the source. -/
def getContent (f : Fetcher) (cfg : TransportConfig) (opt : FetchOptions)
    (writerSupplied : Bool) : CallOutcome :=
  if f.hasObjectBeenUsed then { fetcher := f, result := .nullResult, effects := noEffects }
  else
    let f1 := { f with hasObjectBeenUsed := true }
    if !cfg.setURLOk then { fetcher := f1, result := .nullResult, effects := noEffects }
    else if !cfg.followRedirectsOk then { fetcher := f1, result := .nullResult, effects := noEffects }
    else if !cfg.autoReferOk then { fetcher := f1, result := .nullResult, effects := noEffects }
    else if !cfg.cookieOk then { fetcher := f1, result := .nullResult, effects := noEffects }
    else if !cfg.connTimeoutOk then { fetcher := f1, result := .nullResult, effects := noEffects }
    else if !cfg.userAgentOk then { fetcher := f1, result := .nullResult, effects := noEffects }
    else
      match opt with
      | .CONTENT_TYPE =>
        if !cfg.noopWriteCallbackOk then
          { fetcher := f1, result := .nullResult, effects := noEffects }
        else
          { fetcher := f1, result := .content false,
            effects := { noEffects with
                           spawnedThread := true,
                           installedNoopWriteCallback := true } }
      | .ENTIRE_BODY =>
        let createdLocally := !writerSupplied
        let writerOk := writerSupplied || cfg.localWriterOk
        let f2 := { f1 with streamWriter := writerOk }
        if !writerOk then
          { fetcher := f2, result := .nullResult,
            effects := { noEffects with createdLocalStream := createdLocally } }
        else if !cfg.setWriteCallbackOk then
          { fetcher := f2, result := .nullResult,
            effects := { noEffects with createdLocalStream := createdLocally } }
        else if !cfg.setHeaderCallbackOk then
          { fetcher := f2, result := .nullResult,
            effects := { noEffects with
                           createdLocalStream := createdLocally,
                           installedBodyWriteCallback := true } }
        else
          { fetcher := f2, result := .content createdLocally,
            effects := { noEffects with
                           spawnedThread := true,
                           installedBodyWriteCallback := true,
                           installedHeaderCallback := true,
                           createdLocalStream := createdLocally } }
      | .other => { fetcher := f1, result := .nullResult, effects := noEffects }

/-- curl multi return codes relevant to the two driver loops. -/
inductive MultiCode where
  | callMultiPerform
  | ok
  | err
deriving DecidableEq

/-- Modelled from the spec: HTTPResponseCode's REDIRECTION_START_CODE,
from HttpResponseCodes.h which is outside the source slice; the spec's
"redirect range" is modelled as the HTTP redirection status range
starting at 300. -/
def REDIRECTION_START_CODE : Int := 300

/-- Modelled from the spec: HTTPResponseCode's REDIRECTION_END_CODE, the
end of the HTTP redirection status range, 308. -/
def REDIRECTION_END_CODE : Int := 308

/-- One iteration's worth of transport outcomes for the CONTENT_TYPE
background task: the shutdown flag value read by the loop condition, the
curl_multi_perform result and the transfer count it reports, the outcome
of curl_easy_getinfo(CURLINFO_RESPONSE_CODE), the outcome of
curl_easy_getinfo(CURLINFO_CONTENT_TYPE) (the returned char* may be
null, hence an Option), and whether curl_multi_wait succeeds. -/
structure MetaStep where
  shutdownSeen : Bool
  performResult : MultiCode
  numTransfersLeft : Nat
  statusInfoOk : Bool
  statusValue : Int
  ctInfoOk : Bool
  ctValue : Option (List Nat)
  waitOk : Bool
deriving DecidableEq

/-- An observable action of a background task, in execution order. -/
inductive ThreadEvent where
  | setStatusPromise (v : Int)
  | setContentTypePromise (s : List Nat)
  | closeWriter
  | setDone
deriving DecidableEq

/-- The fulfilment epilogue of the CONTENT_TYPE background task (source
lines 261-266): set the status-code promise to finalResponseCode and the
content-type promise to the queried string, or "" if the pointer is
still null. -/
def finishMeta (resp : Int) (ct : Option (List Nat)) : List ThreadEvent :=
  [ .setStatusPromise resp,
    .setContentTypePromise (match ct with | some s => s | none => []) ]

/-- The while loop of the CONTENT_TYPE background task (source lines
222-260) followed by its fulfilment epilogue.  `resp` is
finalResponseCode, `ct` the contentType pointer, `numLeft` is
numTransfersLeft.  Each MetaStep models one loop-condition check and, if
the condition holds, one loop body.  Returns none when the trace ends
while the loop is still running, some events when the task returns. -/
def metaLoop (resp : Int) (ct : Option (List Nat)) (numLeft : Nat) :
    List MetaStep → Option (List ThreadEvent)
  | [] => if numLeft = 0 then some (finishMeta resp ct) else none
  | s :: rest =>
    if numLeft = 0 || s.shutdownSeen then some (finishMeta resp ct)
    else
      match s.performResult with
      | .callMultiPerform => metaLoop resp ct s.numTransfersLeft rest
      | .err => some (finishMeta resp ct)
      | .ok =>
        if !s.statusInfoOk then some (finishMeta resp ct)
        else
          if s.statusValue ≠ 0 ∧ (s.statusValue < REDIRECTION_START_CODE ∨
              REDIRECTION_END_CODE < s.statusValue) then
            some (finishMeta s.statusValue (if s.ctInfoOk then s.ctValue else ct))
          else if !s.waitOk then some (finishMeta s.statusValue ct)
          else metaLoop s.statusValue ct s.numTransfersLeft rest

/-- The CONTENT_TYPE background task body (source lines 207-270).
`multiCreateOk` is whether CurlMultiHandleWrapper::create succeeds; on
failure both promises are set to their defaults and the task returns. -/
def contentTypeThread (multiCreateOk : Bool) (steps : List MetaStep) :
    Option (List ThreadEvent) :=
  if !multiCreateOk then
    some [ .setStatusPromise 0, .setContentTypePromise [] ]
  else metaLoop 0 none 1 steps

/-- One iteration's worth of transport outcomes for the ENTIRE_BODY
background task loop (source lines 306-323). -/
structure BodyStep where
  shutdownSeen : Bool
  performResult : MultiCode
  numTransfersLeft : Nat
  waitOk : Bool
deriving DecidableEq

/-- The while loop of the ENTIRE_BODY background task: true when the
loop exits within the trace, false when the trace ends first. -/
def bodyLoop (numLeft : Nat) : List BodyStep → Bool
  | [] => numLeft = 0
  | s :: rest =>
    if numLeft = 0 || s.shutdownSeen then true
    else
      match s.performResult with
      | .callMultiPerform => bodyLoop s.numTransfersLeft rest
      | .err => true
      | .ok => if !s.waitOk then true else bodyLoop s.numTransfersLeft rest

/-- The epilogue of the ENTIRE_BODY background task after its loop exits
(source lines 325-343): set both promises from the last-seen header
values, close the writer only if it was created locally, then set
m_done. -/
def finishBody (lastStatus : Int) (lastCT : List Nat) (locallyCreated : Bool) :
    List ThreadEvent :=
  [ .setStatusPromise lastStatus, .setContentTypePromise lastCT ]
    ++ (if locallyCreated then [ .closeWriter ] else []) ++ [ .setDone ]

/-- The ENTIRE_BODY background task body (source lines 294-344).
`lastStatus` and `lastCT` are m_lastStatusCode and m_lastContentType at
loop exit; `locallyCreated` is the captured writerWasCreatedLocally.  On
CurlMultiHandleWrapper::create failure both promises are set to their
defaults and the task returns without closing the writer or setting
m_done. -/
def entireBodyThread (multiCreateOk : Bool) (lastStatus : Int) (lastCT : List Nat)
    (locallyCreated : Bool) (steps : List BodyStep) : Option (List ThreadEvent) :=
  if !multiCreateOk then
    some [ .setStatusPromise 0, .setContentTypePromise [] ]
  else if bodyLoop 1 steps then
    some (finishBody lastStatus lastCT locallyCreated)
  else none

/-- Is an event a fulfilment of the status-code promise? -/
def isStatusSet : ThreadEvent → Bool
  | .setStatusPromise _ => true
  | _ => false

/-- Is an event a fulfilment of the content-type promise? -/
def isCTSet : ThreadEvent → Bool
  | .setContentTypePromise _ => true
  | _ => false

/-- Number of status-code promise fulfilments in an event list. -/
def statusSetCount (evs : List ThreadEvent) : Nat := (evs.filter isStatusSet).length

/-- Number of content-type promise fulfilments in an event list. -/
def ctSetCount (evs : List ThreadEvent) : Nat := (evs.filter isCTSet).length

/-- A transport configuration in which every setup step succeeds. -/
def cfgAllOk : TransportConfig :=
  { setURLOk := true, followRedirectsOk := true, autoReferOk := true,
    cookieOk := true, connTimeoutOk := true, userAgentOk := true,
    noopWriteCallbackOk := true, localWriterOk := true,
    setWriteCallbackOk := true, setHeaderCallbackOk := true }

/-- A CONTENT_TYPE loop-condition check and body that advance the loop
without resolving a final status: no shutdown, perform reports OK with
transfers outstanding, the status query succeeds but yields 0 or a
redirect-range status, and the activity wait succeeds. -/
abbrev MetaStep.normalAdvance (s : MetaStep) : Prop :=
  s.shutdownSeen = false ∧ s.performResult = MultiCode.ok ∧
  s.numTransfersLeft ≠ 0 ∧ s.statusInfoOk = true ∧
  (s.statusValue = 0 ∨ (REDIRECTION_START_CODE ≤ s.statusValue ∧
    s.statusValue ≤ REDIRECTION_END_CODE)) ∧
  s.waitOk = true

/-- A CONTENT_TYPE iteration whose status query yields a known,
non-redirect status. -/
abbrev MetaStep.finalStatus (s : MetaStep) : Prop :=
  s.shutdownSeen = false ∧ s.performResult = MultiCode.ok ∧
  s.statusInfoOk = true ∧ s.statusValue ≠ 0 ∧
  (s.statusValue < REDIRECTION_START_CODE ∨ REDIRECTION_END_CODE < s.statusValue)

/-- The 301-redirect iteration of the C6 scenario. -/
def redirectStep301 : MetaStep :=
  { shutdownSeen := false, performResult := .ok, numTransfersLeft := 1,
    statusInfoOk := true, statusValue := 301, ctInfoOk := false,
    ctValue := none, waitOk := true }

/-- The content type of the C6 scenario. -/
def appJsonCh : List Nat := strBytes "application/json"

/-- The final-200 iteration of the C6 scenario. -/
def finalStep200 : MetaStep :=
  { shutdownSeen := false, performResult := .ok, numTransfersLeft := 1,
    statusInfoOk := true, statusValue := 200, ctInfoOk := true,
    ctValue := some appJsonCh, waitOk := true }

/-- The content type used by several concrete examples. -/
def textPlainCh : List Nat := strBytes "text/plain"

/-- A call on an already-used fetcher fails at the test_and_set guard:
no state change, nullptr, no side effects. -/
lemma getContent_of_used (f : Fetcher) (cfg : TransportConfig)
    (opt : FetchOptions) (w : Bool) (h : f.hasObjectBeenUsed = true) :
    getContent f cfg opt w =
      { fetcher := f, result := .nullResult, effects := noEffects } := by
  unfold getContent
  simp [h]

/-- Any first call on a fresh fetcher leaves the single-use flag set,
whatever path the call takes. -/
lemma used_after_getContent (f : Fetcher) (cfg : TransportConfig)
    (opt : FetchOptions) (w : Bool) (h : f.hasObjectBeenUsed = false) :
    (getContent f cfg opt w).fetcher.hasObjectBeenUsed = true := by
  unfold getContent
  cases opt <;> simp [h] <;> split_ifs <;> rfl

end LibCurlFetcher

namespace LibCurlFetcher

/-- C1: For every fetch object, a second call to getContent (start)
always fails immediately, returning no handles (nullptr, the AlreadyUsed
outcome), performs no side effects — the state is unchanged and the
effect record is empty, so in particular no second background task is
spawned — and only the first call can ever transition the object to
Running. -/
theorem getContent_second_call_fails
    (f : Fetcher) (cfg1 cfg2 : TransportConfig) (opt1 opt2 : FetchOptions)
    (w1 w2 : Bool) (h : f.hasObjectBeenUsed = false) :
    getContent (getContent f cfg1 opt1 w1).fetcher cfg2 opt2 w2 =
      { fetcher := (getContent f cfg1 opt1 w1).fetcher,
        result := .nullResult, effects := noEffects } :=
  getContent_of_used _ _ _ _ (used_after_getContent f cfg1 opt1 w1 h)

/-- Witness for C1 at a concrete first call that succeeds in FullBody
mode: the second call fails with nullptr, no effects, state unchanged. -/
theorem getContent_second_call_fails_witness :
    initialFetcher.hasObjectBeenUsed = false ∧
    getContent (getContent initialFetcher cfgAllOk .ENTIRE_BODY false).fetcher
        cfgAllOk .CONTENT_TYPE true =
      { fetcher := (getContent initialFetcher cfgAllOk .ENTIRE_BODY false).fetcher,
        result := .nullResult, effects := noEffects } :=
  ⟨rfl, getContent_second_call_fails initialFetcher cfgAllOk cfgAllOk
    .ENTIRE_BODY .CONTENT_TYPE false true rfl⟩

/-- C9: The single-use flag is consumed on entry to getContent, before
any validation: a first call that fails during transport configuration
(here, setURL fails on a malformed URL) returns nullptr with no effects,
yet still consumes the flag, so every subsequent call on that instance —
with any configuration, option and writer — fails via the already-used
path, leaving the state unchanged with no side effects.  A failed
configuration attempt is never retryable on the same object. -/
theorem getContent_config_failure_not_retryable
    (f : Fetcher) (cfg1 cfg2 : TransportConfig) (opt1 opt2 : FetchOptions)
    (w1 w2 : Bool) (h : f.hasObjectBeenUsed = false)
    (hurl : cfg1.setURLOk = false) :
    getContent f cfg1 opt1 w1 =
      { fetcher := { f with hasObjectBeenUsed := true },
        result := .nullResult, effects := noEffects } ∧
    getContent (getContent f cfg1 opt1 w1).fetcher cfg2 opt2 w2 =
      { fetcher := (getContent f cfg1 opt1 w1).fetcher,
        result := .nullResult, effects := noEffects } := by
  refine ⟨?_, getContent_of_used _ _ _ _ (used_after_getContent f cfg1 opt1 w1 h)⟩
  unfold getContent
  simp [h, hurl]

/-- Witness for C9: a fresh fetcher whose first call fails at setURL is
not retryable with an all-good configuration. -/
theorem getContent_config_failure_not_retryable_witness :
    getContent initialFetcher { cfgAllOk with setURLOk := false } .ENTIRE_BODY false =
      { fetcher := { initialFetcher with hasObjectBeenUsed := true },
        result := .nullResult, effects := noEffects } ∧
    getContent (getContent initialFetcher { cfgAllOk with setURLOk := false }
        .ENTIRE_BODY false).fetcher cfgAllOk .ENTIRE_BODY false =
      { fetcher := (getContent initialFetcher { cfgAllOk with setURLOk := false }
          .ENTIRE_BODY false).fetcher,
        result := .nullResult, effects := noEffects } :=
  getContent_config_failure_not_retryable initialFetcher
    { cfgAllOk with setURLOk := false } cfgAllOk .ENTIRE_BODY .ENTIRE_BODY
    false false rfl rfl

/-- C10: For every fetch-mode argument other than the two documented
modes, getContent on a fresh instance returns failure (nullptr) from the
default branch — whatever the transport configuration — spawning no
background task, installing no callbacks, creating no stream, and
fulfilling neither result cell; the only state change is the consumed
single-use flag. -/
theorem getContent_other_mode_fails
    (f : Fetcher) (cfg : TransportConfig) (w : Bool)
    (h : f.hasObjectBeenUsed = false) :
    getContent f cfg .other w =
      { fetcher := { f with hasObjectBeenUsed := true },
        result := .nullResult, effects := noEffects } := by
  unfold getContent
  simp [h]

/-- Witness for C10 on the fresh fetcher with the all-good
configuration. -/
theorem getContent_other_mode_fails_witness :
    getContent initialFetcher cfgAllOk .other true =
      { fetcher := { initialFetcher with hasObjectBeenUsed := true },
        result := .nullResult, effects := noEffects } :=
  getContent_other_mode_fails initialFetcher cfgAllOk true rfl

/-- traceBytes distributes over cons. -/
lemma traceBytes_cons (r : WriteResult) (rs : List WriteResult) :
    traceBytes (r :: rs) = r.bytes + traceBytes rs := by
  simp [traceBytes]

/-- C2 counterexample: on the two-byte chunk [0, 1], with the sink
accepting one byte with OK and then one byte with OK_BUFFER_FULL, the
claim predicts the loop advances by the bytes written and completes the
delivery (returning 2); the code instead treats OK_BUFFER_FULL — a
status inside the sink's documented status set — as the fatal case and
returns 0, even though both bytes reached the sink. -/
theorem bodyCallback_okBufferFull_fatal_counterexample :
    bodyCallback false true [0, 1]
        [ { bytes := 1, status := .ok }, { bytes := 1, status := .okBufferFull } ] =
      .finished 0 [0, 1] 2 ∧
    (bodyCallback false true [0, 1]
        [ { bytes := 1, status := .ok }, { bytes := 1, status := .okBufferFull } ]).retVal ≠
      some 2 := by
  decide

/-- In a run where every sink response is OK and the responses cover the
chunk exactly, the delivery returns the full chunk length and the whole
chunk reaches the sink. -/
lemma writeLoop_all_ok (data : List Nat) (rs : List WriteResult) :
    ∀ (total att : Nat),
      validTrace data.length total rs = true →
      (∀ r ∈ rs, r.status = WriteStatus.ok) →
      total + traceBytes rs = data.length →
      (writeLoop data total (data.take total) att rs).retVal = some data.length ∧
      (writeLoop data total (data.take total) att rs).written = data := by
  induction rs with
  | nil =>
    intro total att _ _ hsum
    simp [traceBytes] at hsum
    subst hsum
    unfold writeLoop
    simp [DeliveryOutcome.retVal, DeliveryOutcome.written]
  | cons r rest ih =>
    intro total att hval hall hsum
    unfold validTrace at hval
    simp only [Bool.and_eq_true, decide_eq_true_eq] at hval
    obtain ⟨hb, hval'⟩ := hval
    have hr : r.status = WriteStatus.ok := hall r (by simp)
    have hall' : ∀ x ∈ rest, x.status = WriteStatus.ok := by
      intro x hx
      exact hall x (by simp [hx])
    have hsum' : (total + r.bytes) + traceBytes rest = data.length := by
      rw [traceBytes_cons] at hsum
      omega
    by_cases htot : total < data.length
    · unfold writeLoop
      simp only [htot, if_true, hr]
      rw [← List.take_add]
      exact ih (total + r.bytes) (att + 1) hval' hall' hsum'
    · have htot' : total = data.length := by
        have : total ≤ data.length := by omega
        omega
      subst htot'
      unfold writeLoop
      simp [DeliveryOutcome.retVal, DeliveryOutcome.written]

/-- C2 amended: in every StreamBridge delivery, a bounded write attempt
whose status is OK or timed-out — fully or partially successful —
advances the loop by the bytes actually written and continues with the
remainder (so a chunk covered entirely by OK responses is delivered in
full, returning its full length); but the OK-but-full status, although
inside the sink's documented status set, is treated exactly like a
status outside that set: a fatal protocol violation making the delivery
return 0. -/
theorem writeLoop_advance_and_fatal (data : List Nat) :
    (∀ (total att w : Nat) (acc : List Nat) (rest : List WriteResult),
      total < data.length →
      (writeLoop data total acc att ({ bytes := w, status := .ok } :: rest) =
        writeLoop data (total + w) (acc ++ (data.drop total).take w) (att + 1) rest) ∧
      (writeLoop data total acc att ({ bytes := w, status := .timedout } :: rest) =
        writeLoop data (total + w) (acc ++ (data.drop total).take w) (att + 1) rest) ∧
      (writeLoop data total acc att ({ bytes := w, status := .okBufferFull } :: rest) =
        .finished 0 (acc ++ (data.drop total).take w) (att + 1)) ∧
      (writeLoop data total acc att ({ bytes := w, status := .unrecognized } :: rest) =
        .finished 0 (acc ++ (data.drop total).take w) (att + 1))) ∧
    (∀ rs : List WriteResult,
      validTrace data.length 0 rs = true →
      (∀ r ∈ rs, r.status = WriteStatus.ok) →
      traceBytes rs = data.length →
      (bodyCallback false true data rs).retVal = some data.length ∧
      (bodyCallback false true data rs).written = data) := by
  constructor
  · intro total att w acc rest htot
    refine ⟨?_, ?_, ?_, ?_⟩ <;> (conv_lhs => rw [writeLoop]) <;> simp [htot]
  · intro rs hval hall hsum
    have h := writeLoop_all_ok data rs 0 0 hval hall (by omega)
    simpa [bodyCallback] using h

/-- Witness for C2's amended theorem: a chunk of two bytes covered by a
single OK response of two bytes is delivered in full, returning 2. -/
theorem writeLoop_advance_and_fatal_witness :
    (bodyCallback false true [3, 4] [ { bytes := 2, status := .ok } ]).retVal = some 2 ∧
    (bodyCallback false true [3, 4] [ { bytes := 2, status := .ok } ]).written = [3, 4] :=
  (writeLoop_advance_and_fatal [3, 4]).2 [ { bytes := 2, status := .ok } ]
    (by decide) (by decide) (by decide)

/-- C4 counterexample: on the chunk [5, 6, 7] with the sink accepting
two bytes with OK and then one byte with OK_BUFFER_FULL, all three bytes
reach the sink but the delivery returns 0, so the bytes that reached the
sink are not the first k bytes of the chunk for k the returned count. -/
theorem bodyCallback_returned_prefix_counterexample :
    bodyCallback false true [5, 6, 7]
        [ { bytes := 2, status := .ok }, { bytes := 1, status := .okBufferFull } ] =
      .finished 0 [5, 6, 7] 2 ∧
    ([5, 6, 7] : List Nat) ≠ List.take 0 [5, 6, 7] := by
  decide

/-- Invariant of the bounded-write loop: starting from a delivered
prefix, the bytes delivered to the sink always form a prefix of the
chunk, and a returned count is either that prefix's length or 0. -/
lemma writeLoop_prefix_inv (data : List Nat) (rs : List WriteResult) :
    ∀ (total att : Nat),
      validTrace data.length total rs = true →
      total ≤ data.length →
      ((writeLoop data total (data.take total) att rs).written =
        data.take (writeLoop data total (data.take total) att rs).written.length) ∧
      (∀ r w a, writeLoop data total (data.take total) att rs = .finished r w a →
        r = w.length ∨ r = 0) := by
  induction rs with
  | nil =>
    intro total att _ htot
    unfold writeLoop
    by_cases h : total < data.length
    · simp only [h, if_true]
      constructor
      · simp [DeliveryOutcome.written, List.length_take, Nat.min_eq_left htot]
      · intro r w a heq
        cases heq
    · have htot' : total = data.length := by omega
      subst htot'
      simp only [lt_irrefl, if_false]
      constructor
      · simp [DeliveryOutcome.written]
      · intro r w a heq
        cases heq
        left
        simp
  | cons r rest ih =>
    intro total att hval htot
    unfold validTrace at hval
    simp only [Bool.and_eq_true, decide_eq_true_eq] at hval
    obtain ⟨hb, hval'⟩ := hval
    by_cases h : total < data.length
    · unfold writeLoop
      simp only [h, if_true]
      rw [← List.take_add]
      have htot' : total + r.bytes ≤ data.length := by omega
      have hlen : (data.take (total + r.bytes)).length = total + r.bytes := by
        simp [List.length_take, Nat.min_eq_left htot']
      cases hst : r.status with
      | closed =>
        refine ⟨by simp [DeliveryOutcome.written, hlen], ?_⟩
        intro rv wv av hfin
        cases hfin
        left
        exact hlen.symm
      | errorBytesLessThanWordSize =>
        refine ⟨by simp [DeliveryOutcome.written, hlen], ?_⟩
        intro rv wv av hfin
        cases hfin
        left
        exact hlen.symm
      | errorInternal =>
        refine ⟨by simp [DeliveryOutcome.written, hlen], ?_⟩
        intro rv wv av hfin
        cases hfin
        left
        exact hlen.symm
      | timedout => exact ih (total + r.bytes) (att + 1) hval' htot'
      | ok => exact ih (total + r.bytes) (att + 1) hval' htot'
      | okBufferFull =>
        refine ⟨by simp [DeliveryOutcome.written, hlen], ?_⟩
        intro rv wv av hfin
        cases hfin
        right
        rfl
      | unrecognized =>
        refine ⟨by simp [DeliveryOutcome.written, hlen], ?_⟩
        intro rv wv av hfin
        cases hfin
        right
        rfl
    · have htot' : total = data.length := by omega
      subst htot'
      unfold writeLoop
      simp only [lt_irrefl, if_false]
      constructor
      · simp [DeliveryOutcome.written]
      · intro rv wv av hfin
        cases hfin
        left
        simp

/-- C4 amended: in every StreamBridge delivery of a chunk (with a sink
that never reports more bytes accepted than offered), the bytes that
reach the sink, concatenated in call order, are exactly a prefix of the
chunk — transport-delivery order, no reordering, duplication or gap, a
short write trimming only from the front — and the count the delivery
returns equals that prefix's length on every exit except the fatal
OK-but-full / unrecognized-status exits, which return 0 even though the
prefix delivered may be non-empty. -/
theorem bodyCallback_sink_gets_chunk_in_order (data : List Nat)
    (rs : List WriteResult) (hval : validTrace data.length 0 rs = true) :
    ((bodyCallback false true data rs).written =
      data.take (bodyCallback false true data rs).written.length) ∧
    (∀ r w a, bodyCallback false true data rs = .finished r w a →
      r = w.length ∨ r = 0) := by
  have h := writeLoop_prefix_inv data rs 0 0 hval (by omega)
  simpa [bodyCallback] using h

/-- Witness for C4's amended theorem: a delivery of [7, 8, 9, 10] whose
sink accepts two bytes with OK then one byte with CLOSED delivers the
prefix [7, 8, 9]. -/
theorem bodyCallback_sink_gets_chunk_in_order_witness :
    (bodyCallback false true [7, 8, 9, 10]
        [ { bytes := 2, status := .ok }, { bytes := 1, status := .closed } ]).written =
      List.take (bodyCallback false true [7, 8, 9, 10]
        [ { bytes := 2, status := .ok }, { bytes := 1, status := .closed } ]).written.length
        [7, 8, 9, 10] :=
  (bodyCallback_sink_gets_chunk_in_order [7, 8, 9, 10]
    [ { bytes := 2, status := .ok }, { bytes := 1, status := .closed } ] (by decide)).1

/-- A run whose responses are OK or TIMEDOUT up to a response whose
status is CLOSED or a terminal sink error stops at that response — never
consuming the rest of the trace — and returns the running total
including that response's bytes. -/
lemma writeLoop_terminal_stop (data : List Nat) (pre : List WriteResult) :
    ∀ (total att w : Nat) (acc : List Nat) (s : WriteStatus) (rest : List WriteResult),
      (∀ r ∈ pre, r.status = WriteStatus.ok ∨ r.status = WriteStatus.timedout) →
      (s = WriteStatus.closed ∨ s = WriteStatus.errorBytesLessThanWordSize ∨
        s = WriteStatus.errorInternal) →
      total + traceBytes pre < data.length →
      ∃ wr, writeLoop data total acc att (pre ++ { bytes := w, status := s } :: rest) =
        .finished (total + traceBytes pre + w) wr (att + (pre.length + 1)) := by
  induction pre with
  | nil =>
    intro total att w acc s rest _ hs hlen
    simp only [traceBytes, List.map_nil, List.sum_nil, Nat.add_zero] at hlen ⊢
    have htot : total < data.length := hlen
    unfold writeLoop
    simp only [List.nil_append, htot, if_true]
    rcases hs with h | h | h <;> subst h <;> exact ⟨_, rfl⟩
  | cons p pre' ih =>
    intro total att w acc s rest hpre hs hlen
    have hp : p.status = WriteStatus.ok ∨ p.status = WriteStatus.timedout :=
      hpre p (by simp)
    have hpre' : ∀ r ∈ pre', r.status = WriteStatus.ok ∨ r.status = WriteStatus.timedout := by
      intro r hr
      exact hpre r (by simp [hr])
    rw [traceBytes_cons] at hlen
    have htot : total < data.length := by omega
    have hlen' : (total + p.bytes) + traceBytes pre' < data.length := by omega
    obtain ⟨wr, hwr⟩ := ih (total + p.bytes) (att + 1) w
      (acc ++ (data.drop total).take p.bytes) s rest hpre' hs hlen'
    refine ⟨wr, ?_⟩
    unfold writeLoop
    simp only [List.cons_append, htot, if_true]
    have harith1 : total + p.bytes + traceBytes pre' + w =
        total + traceBytes (p :: pre') + w := by
      rw [traceBytes_cons]
      omega
    have harith2 : att + 1 + (pre'.length + 1) = att + ((p :: pre').length + 1) := by
      simp
      omega
    rcases hp with h | h <;> rw [h, hwr, harith1, harith2]

/-- C7: in every StreamBridge delivery, if a write attempt returns the
CLOSED status or a terminal sink error (ERROR_BYTES_LESS_THAN_WORD_SIZE
or ERROR_INTERNAL) while earlier attempts all returned OK or TIMEDOUT,
the delivery stops immediately — exactly the attempts before it plus
that one, whatever responses the sink might still have produced — and
returns the count of bytes written so far, including the bytes that very
attempt wrote. -/
theorem bodyCallback_terminal_status_stops (data : List Nat)
    (pre rest : List WriteResult) (w : Nat) (s : WriteStatus)
    (hpre : ∀ r ∈ pre, r.status = WriteStatus.ok ∨ r.status = WriteStatus.timedout)
    (hs : s = WriteStatus.closed ∨ s = WriteStatus.errorBytesLessThanWordSize ∨
      s = WriteStatus.errorInternal)
    (hlen : traceBytes pre < data.length) :
    (bodyCallback false true data
        (pre ++ { bytes := w, status := s } :: rest)).retVal =
      some (traceBytes pre + w) ∧
    (bodyCallback false true data
        (pre ++ { bytes := w, status := s } :: rest)).tries = pre.length + 1 := by
  obtain ⟨wr, hwr⟩ := writeLoop_terminal_stop data pre 0 0 w [] s rest hpre hs
    (by omega)
  have hbc : bodyCallback false true data (pre ++ { bytes := w, status := s } :: rest) =
      writeLoop data 0 [] 0 (pre ++ { bytes := w, status := s } :: rest) := by
    simp [bodyCallback]
  rw [hbc, hwr]
  simp [DeliveryOutcome.retVal, DeliveryOutcome.tries]

/-- Witness for C7: on the chunk [1, 2, 3], one OK byte then a CLOSED
attempt writing one more byte stops after two attempts and returns 2 —
neither 0 nor the full chunk size 3 — ignoring a remaining response. -/
theorem bodyCallback_terminal_status_stops_witness :
    (bodyCallback false true [1, 2, 3]
        [ { bytes := 1, status := .ok }, { bytes := 1, status := .closed },
          { bytes := 5, status := .ok } ]).retVal = some 2 ∧
    (bodyCallback false true [1, 2, 3]
        [ { bytes := 1, status := .ok }, { bytes := 1, status := .closed },
          { bytes := 5, status := .ok } ]).tries = 2 :=
  bodyCallback_terminal_status_stops [1, 2, 3] [ { bytes := 1, status := .ok } ]
    [ { bytes := 5, status := .ok } ] 1 .closed (by decide) (by decide) (by decide)

/-- Whenever the CONTENT_TYPE task's loop exits within the trace, the
events it performs are a fulfilment epilogue for some pair of values. -/
lemma metaLoop_exit_shape (steps : List MetaStep) :
    ∀ (resp : Int) (ct : Option (List Nat)) (numLeft : Nat) (evs : List ThreadEvent),
      metaLoop resp ct numLeft steps = some evs → ∃ a b, evs = finishMeta a b := by
  induction steps with
  | nil =>
    intro resp ct numLeft evs h
    unfold metaLoop at h
    split at h
    · exact ⟨resp, ct, (Option.some.inj h).symm⟩
    · cases h
  | cons s rest ih =>
    intro resp ct numLeft evs h
    unfold metaLoop at h
    split at h
    · exact ⟨resp, ct, (Option.some.inj h).symm⟩
    · split at h
      · exact ih _ _ _ _ h
      · exact ⟨resp, ct, (Option.some.inj h).symm⟩
      · split at h
        · exact ⟨resp, ct, (Option.some.inj h).symm⟩
        · split at h
          · exact ⟨_, _, (Option.some.inj h).symm⟩
          · split at h
            · exact ⟨_, _, (Option.some.inj h).symm⟩
            · exact ih _ _ _ _ h

/-- A fulfilment epilogue sets each promise exactly once. -/
lemma finishMeta_counts (a : Int) (b : Option (List Nat)) :
    statusSetCount (finishMeta a b) = 1 ∧ ctSetCount (finishMeta a b) = 1 := by
  simp [finishMeta, statusSetCount, ctSetCount, isStatusSet, isCTSet, List.filter]

/-- The FullBody fulfilment epilogue sets each promise exactly once. -/
lemma finishBody_counts (a : Int) (b : List Nat) (loc : Bool) :
    statusSetCount (finishBody a b loc) = 1 ∧ ctSetCount (finishBody a b loc) = 1 := by
  cases loc <;>
    simp [finishBody, statusSetCount, ctSetCount, isStatusSet, isCTSet, List.filter]

/-- C3: on every exit path of the background task, in both fetch modes —
natural completion, transport perform or wait error, getinfo error,
terminal status, multi-handle creation failure, or shutdown — both
result cells are fulfilled exactly once: whenever the task body
terminates and yields its event list, that list contains exactly one
fulfilment of the status-code promise and exactly one fulfilment of the
content-type promise (on the creation-failure path with the default
values 0 and the empty string). -/
theorem promises_fulfilled_exactly_once :
    (∀ (multiOk : Bool) (steps : List MetaStep) (evs : List ThreadEvent),
      contentTypeThread multiOk steps = some evs →
      statusSetCount evs = 1 ∧ ctSetCount evs = 1) ∧
    (∀ (multiOk : Bool) (lastStatus : Int) (lastCT : List Nat)
        (locallyCreated : Bool) (steps : List BodyStep) (evs : List ThreadEvent),
      entireBodyThread multiOk lastStatus lastCT locallyCreated steps = some evs →
      statusSetCount evs = 1 ∧ ctSetCount evs = 1) := by
  constructor
  · intro multiOk steps evs h
    cases multiOk with
    | false =>
      simp [contentTypeThread] at h
      subst h
      decide
    | true =>
      simp [contentTypeThread] at h
      obtain ⟨a, b, rfl⟩ := metaLoop_exit_shape steps 0 none 1 evs h
      exact finishMeta_counts a b
  · intro multiOk lastStatus lastCT locallyCreated steps evs h
    cases multiOk with
    | false =>
      simp [entireBodyThread] at h
      subst h
      decide
    | true =>
      simp [entireBodyThread] at h
      obtain ⟨-, rfl⟩ := h
      exact finishBody_counts lastStatus lastCT locallyCreated

/-- Witness for C3: the CONTENT_TYPE task's creation-failure path
fulfils each cell exactly once with the default values. -/
theorem promises_fulfilled_exactly_once_witness :
    statusSetCount
        [ ThreadEvent.setStatusPromise 0, ThreadEvent.setContentTypePromise [] ] = 1 ∧
    ctSetCount
        [ ThreadEvent.setStatusPromise 0, ThreadEvent.setContentTypePromise [] ] = 1 :=
  promises_fulfilled_exactly_once.1 false []
    [ ThreadEvent.setStatusPromise 0, ThreadEvent.setContentTypePromise [] ] rfl

/-- The CONTENT_TYPE loop runs straight through normally-advancing
iterations and stops at a final-status iteration, fulfilling from that
iteration's queried values. -/
lemma metaLoop_stops_at_first_final (pre : List MetaStep) :
    ∀ (resp : Int) (numLeft : Nat) (s : MetaStep) (rest : List MetaStep),
      (∀ t ∈ pre, t.normalAdvance) → s.finalStatus → numLeft ≠ 0 →
      metaLoop resp none numLeft (pre ++ s :: rest) =
        some (finishMeta s.statusValue (if s.ctInfoOk then s.ctValue else none)) := by
  induction pre with
  | nil =>
    intro resp numLeft s rest _ hs hn
    obtain ⟨h1, h2, h3, h4, h5⟩ := hs
    unfold metaLoop
    simp [h1, h2, h3, h4, h5, hn]
  | cons t pre' ih =>
    intro resp numLeft s rest hpre hs hn
    obtain ⟨t1, t2, t3, t4, t5, t6⟩ := hpre t (by simp)
    have hc : ¬(t.statusValue ≠ 0 ∧ (t.statusValue < REDIRECTION_START_CODE ∨
        REDIRECTION_END_CODE < t.statusValue)) := by
      rcases t5 with h | ⟨ha, hb⟩
      · intro hcon
        exact hcon.1 h
      · rintro ⟨-, h2⟩
        rcases h2 with h2 | h2
        · exact absurd ha (not_le.mpr h2)
        · exact absurd hb (not_le.mpr h2)
    have hrec := ih t.statusValue t.numTransfersLeft s rest
      (fun x hx => hpre x (by simp [hx])) hs t3
    unfold metaLoop
    simp only [List.cons_append]
    rw [if_neg (by simp [hn, t1]), t2]
    simp only [t4, Bool.not_true, Bool.false_eq_true, if_false]
    rw [if_neg hc, if_neg (by simp [t6])]
    exact hrec

/-- C6: in MetadataOnly (CONTENT_TYPE) mode, the driver loop stops at
the first iteration whose queried status code is nonzero and outside the
redirect range, fulfilling the promises with that status code and the
content type queried at that moment; in the 301-then-200 scenario the
status cell resolves to 200 and the content-type cell to
"application/json"; and no body bytes ever reach any sink: the installed
body handler is the noop callback, which delivers nothing and returns 0,
and this mode neither sets a stream writer nor installs the
StreamBridge body callback. -/
theorem metadataOnly_stops_at_final_status :
    (∀ (pre rest : List MetaStep) (s : MetaStep),
      (∀ t ∈ pre, t.normalAdvance) → s.finalStatus →
      contentTypeThread true (pre ++ s :: rest) =
        some (finishMeta s.statusValue (if s.ctInfoOk then s.ctValue else none))) ∧
    (contentTypeThread true [redirectStep301, finalStep200] =
      some [ ThreadEvent.setStatusPromise 200,
             ThreadEvent.setContentTypePromise appJsonCh ]) ∧
    (∀ data : List Nat, noopCallback data = (0, [])) ∧
    (∀ (cfg : TransportConfig) (w : Bool),
      (getContent initialFetcher cfg FetchOptions.CONTENT_TYPE w).fetcher.streamWriter
        = false ∧
      (getContent initialFetcher cfg
          FetchOptions.CONTENT_TYPE w).effects.installedBodyWriteCallback = false) := by
  refine ⟨?_, ?_, fun _ => rfl, ?_⟩
  · intro pre rest s hpre hs
    simp only [contentTypeThread, Bool.not_true, Bool.false_eq_true, if_false]
    exact metaLoop_stops_at_first_final pre 0 1 s rest hpre hs one_ne_zero
  · rfl
  · intro cfg w
    unfold getContent
    simp [initialFetcher]
    split_ifs <;> simp [noEffects]

/-- Witness for C6's general part: a trace with one redirect iteration
then the final-200 iteration fulfils 200 and "application/json". -/
theorem metadataOnly_stops_at_final_status_witness :
    contentTypeThread true ([redirectStep301] ++ finalStep200 :: []) =
      some (finishMeta finalStep200.statusValue
        (if finalStep200.ctInfoOk then finalStep200.ctValue else none)) :=
  metadataOnly_stops_at_final_status.1 [redirectStep301] [] finalStep200
    (by decide) (by decide)

/-- C8 counterexample: in FullBody mode on the multi-handle
creation-failure path with a locally created sink, both result cells are
fulfilled, yet the sink is not closed and the Done flag is not set —
refuting the claim that after both cells are fulfilled the sink is
closed iff locally created and Done is then set in all cases. -/
theorem entireBody_create_failure_counterexample :
    entireBodyThread false 0 [] true [] =
      some [ ThreadEvent.setStatusPromise 0, ThreadEvent.setContentTypePromise [] ] ∧
    statusSetCount
      [ ThreadEvent.setStatusPromise 0, ThreadEvent.setContentTypePromise [] ] = 1 ∧
    ctSetCount
      [ ThreadEvent.setStatusPromise 0, ThreadEvent.setContentTypePromise [] ] = 1 ∧
    ThreadEvent.closeWriter ∉
      [ ThreadEvent.setStatusPromise 0, ThreadEvent.setContentTypePromise [] ] ∧
    ThreadEvent.setDone ∉
      [ ThreadEvent.setStatusPromise 0, ThreadEvent.setContentTypePromise [] ] := by
  decide

/-- C8 amended: in FullBody mode, on every loop-exit path (the multi
handle was created), after both result cells are fulfilled the sink is
closed by the background task if and only if it was locally created, and
the Done flag is then set; but on the multi-handle creation-failure path
both cells are fulfilled without closing the sink or setting Done.  A
caller-supplied sink is never closed by this core on any path, and once
Done is set a StreamBridge delivery performs no sink writes at all. -/
theorem entireBody_close_iff_local :
    (∀ (lastStatus : Int) (lastCT : List Nat) (locallyCreated : Bool)
        (steps : List BodyStep) (evs : List ThreadEvent),
      entireBodyThread true lastStatus lastCT locallyCreated steps = some evs →
      evs = [ ThreadEvent.setStatusPromise lastStatus,
              ThreadEvent.setContentTypePromise lastCT ]
          ++ (if locallyCreated then [ThreadEvent.closeWriter] else [])
          ++ [ThreadEvent.setDone] ∧
      (ThreadEvent.closeWriter ∈ evs ↔ locallyCreated = true)) ∧
    (∀ (multiOk : Bool) (lastStatus : Int) (lastCT : List Nat)
        (steps : List BodyStep) (evs : List ThreadEvent),
      entireBodyThread multiOk lastStatus lastCT false steps = some evs →
      ThreadEvent.closeWriter ∉ evs) ∧
    (∀ (hasWriter : Bool) (data : List Nat) (responses : List WriteResult),
      bodyCallback true hasWriter data responses = DeliveryOutcome.finished 0 [] 0) := by
  refine ⟨?_, ?_, fun _ _ _ => rfl⟩
  · intro lastStatus lastCT locallyCreated steps evs h
    simp [entireBodyThread] at h
    obtain ⟨-, rfl⟩ := h
    refine ⟨rfl, ?_⟩
    cases locallyCreated <;> simp [finishBody]
  · intro multiOk lastStatus lastCT steps evs h
    cases multiOk with
    | false =>
      simp [entireBodyThread] at h
      subst h
      decide
    | true =>
      simp [entireBodyThread] at h
      obtain ⟨-, rfl⟩ := h
      simp [finishBody]

/-- Witness for C8's amended theorem at a concrete completed fetch with
a locally created sink: the events are fulfil, fulfil, close, done. -/
theorem entireBody_close_iff_local_witness :
    ([ ThreadEvent.setStatusPromise 200, ThreadEvent.setContentTypePromise textPlainCh,
       ThreadEvent.closeWriter, ThreadEvent.setDone ] =
      [ ThreadEvent.setStatusPromise 200, ThreadEvent.setContentTypePromise textPlainCh ]
        ++ (if true then [ThreadEvent.closeWriter] else []) ++ [ThreadEvent.setDone]) ∧
    (ThreadEvent.closeWriter ∈
      [ ThreadEvent.setStatusPromise 200, ThreadEvent.setContentTypePromise textPlainCh,
        ThreadEvent.closeWriter, ThreadEvent.setDone ] ↔ true = true) :=
  entireBody_close_iff_local.1 200 textPlainCh true
    [ { shutdownSeen := false, performResult := .ok, numTransfersLeft := 0,
        waitOk := true } ]
    [ ThreadEvent.setStatusPromise 200, ThreadEvent.setContentTypePromise textPlainCh,
      ThreadEvent.closeWriter, ThreadEvent.setDone ] rfl

/-- ::tolower is idempotent on bytes. -/
lemma asciiLower_idem (b : Nat) : asciiLower (asciiLower b) = asciiLower b := by
  unfold asciiLower
  split_ifs <;> omega

/-- Lowercasing leaves a digit string unchanged. -/
lemma map_asciiLower_digits (ds : List Nat) (h : ∀ b ∈ ds, isDigitB b = true) :
    ds.map asciiLower = ds := by
  induction ds with
  | nil => rfl
  | cons d ds' ih =>
    have hd : 48 ≤ d ∧ d ≤ 57 := by simpa [isDigitB] using h d (by simp)
    have hlow : asciiLower d = d := by
      unfold asciiLower
      rw [if_neg (by omega)]
    rw [List.map_cons, hlow, ih (fun b hb => h b (by simp [hb]))]

/-- takeWhile passes over a block that satisfies the predicate. -/
lemma takeWhile_append_all (p : Nat → Bool) (l1 l2 : List Nat)
    (h : ∀ b ∈ l1, p b = true) :
    (l1 ++ l2).takeWhile p = l1 ++ l2.takeWhile p := by
  induction l1 with
  | nil => simp
  | cons a l ih =>
    rw [List.cons_append, List.takeWhile_cons_of_pos (h a (by simp)),
      ih (fun b hb => h b (by simp [hb])), List.cons_append]

/-- C5: headerCallback parses case-insensitively: lowercasing the input
line first changes nothing (the parse is invariant under case).  A line
beginning with the protocol-version token "http" sets the last-seen
status code to the integer after the version token and leaves the
content type unchanged (shown for status lines `HTTP/1.1 <digits> ...`
with an arbitrary digit string and tail); a line beginning with the
content-type field name sets the last-seen content type to the value
token with everything from the first semicolon onward removed, leaving
the status code unchanged ("Content-Type: text/plain; charset=utf-8"
yields "text/plain"); any other line changes neither value. -/
theorem headerCallback_parsing :
    (∀ (line : List Nat) (st : HeaderState),
      headerCallback (line.map asciiLower) st = headerCallback line st) ∧
    (∀ (line : List Nat) (st : HeaderState),
      beginsWith httpTok (line.map asciiLower) = false →
      beginsWith contentTypeTok (line.map asciiLower) = false →
      headerCallback line st = (st, line.length)) ∧
    (∀ (st : HeaderState) (ds rest : List Nat),
      ds ≠ [] → (∀ b ∈ ds, isDigitB b = true) →
      (headerCallback (strBytes "HTTP/1.1 " ++ ds ++ 32 :: rest) st).1 =
        { st with lastStatusCode := (natOfDigits ds : Int) }) ∧
    (∀ st : HeaderState,
      headerCallback (strBytes "Content-Type: text/plain; charset=utf-8") st =
        ({ st with lastContentType := textPlainCh }, 39)) := by
  refine ⟨?_, ?_, ?_, fun st => rfl⟩
  · intro line st
    unfold headerCallback
    have hmap : (line.map asciiLower).map asciiLower = line.map asciiLower := by
      rw [List.map_map]
      exact List.map_congr_left fun b _ => by simp [Function.comp, asciiLower_idem]
    simp only [hmap, List.length_map]
  · intro line st h1 h2
    unfold headerCallback
    simp [h1, h2]
  · intro st ds rest hne hds
    obtain ⟨d, ds', rfl⟩ := List.exists_cons_of_ne_nil hne
    have hd : 48 ≤ d ∧ d ≤ 57 := by simpa [isDigitB] using hds d (by simp)
    have hdsp : isSpaceB d = false := by
      simp [isSpaceB]
      omega
    have hddig : isDigitB d = true := by
      simp [isDigitB]
      omega
    have hmapds : (d :: ds').map asciiLower = d :: ds' := map_asciiLower_digits _ hds
    have hpre : (strBytes "HTTP/1.1 ").map asciiLower =
        104 :: 116 :: 116 :: 112 :: 47 :: 49 :: 46 :: 49 :: 32 :: ([] : List Nat) := by
      decide
    have httpTokLit : httpTok = [104, 116, 116, 112] := by decide
    have h32 : asciiLower 32 = 32 := by decide
    unfold headerCallback
    simp only [List.map_append, hpre, hmapds, List.map_cons, h32, List.cons_append,
      List.nil_append]
    have hbw : beginsWith httpTok
        (104 :: 116 :: 116 :: 112 :: 47 :: 49 :: 46 :: 49 :: 32 :: d ::
          (ds' ++ 32 :: rest.map asciiLower)) = true := by
      simp [httpTokLit, beginsWith]
    rw [hbw]
    have haft : afterToken1 (104 :: 116 :: 116 :: 112 :: 47 :: 49 :: 46 :: 49 :: 32 :: d ::
        (ds' ++ 32 :: rest.map asciiLower)) =
        32 :: d :: (ds' ++ 32 :: rest.map asciiLower) := by
      unfold afterToken1 dropSpaces
      simp [isSpaceB, List.dropWhile_cons]
    rw [haft]
    have hds2 : dropSpaces (32 :: d :: (ds' ++ 32 :: rest.map asciiLower)) =
        d :: (ds' ++ 32 :: rest.map asciiLower) := by
      unfold dropSpaces
      rw [List.dropWhile_cons_of_pos (by decide),
        List.dropWhile_cons_of_neg (by simp [hdsp])]
    have hlead : leadingDigits (d :: (ds' ++ 32 :: rest.map asciiLower)) = d :: ds' := by
      unfold leadingDigits
      rw [← List.cons_append, takeWhile_append_all _ _ _ hds,
        List.takeWhile_cons_of_neg (by decide), List.append_nil]
    have hext : extractLong (32 :: d :: (ds' ++ 32 :: rest.map asciiLower)) =
        (natOfDigits (d :: ds') : Int) := by
      unfold extractLong
      rw [hds2]
      simp only [hddig, hlead, if_neg (show ¬(d = 45) by omega),
        if_neg (show ¬(d = 43) by omega), eq_self_iff_true, if_true]
    simp [hext]

/-- Witness for C5: the status line "HTTP/1.1 200 ok" sets the last-seen
status code to 200 while keeping the content type. -/
theorem headerCallback_parsing_witness :
    (headerCallback (strBytes "HTTP/1.1 " ++ [50, 48, 48] ++ 32 :: [111, 107])
        { lastStatusCode := 0, lastContentType := [] }).1 =
      { lastStatusCode := (natOfDigits [50, 48, 48] : Int), lastContentType := [] } :=
  headerCallback_parsing.2.2.1 { lastStatusCode := 0, lastContentType := [] }
    [50, 48, 48] [111, 107] (by decide) (by decide)

end LibCurlFetcher
